import Mathlib

set_option autoImplicit false

namespace ImageApi

/-!
Shallow embedding of the `serverless-image-api` repository
(`src/handlers/{upload_image,get_image,delete_image,list_images}.py`,
`src/utils/{validators,response_helpers}.py`, `src/config.py`).

Python strings are modelled as Lean `String`s except where the code treats
them as raw byte/ASCII sequences: binary blobs are `List Nat` (each entry a
byte `< 256`) and base64 text is a `List Nat` of ASCII codes.  Python dicts
that flow through the handlers (DynamoDB items, response bodies) are
association lists `List (String × AttrVal)` read in insertion order, like
Python dicts.  External collaborators (S3, DynamoDB, `uuid`, clock, JSON
decoding of cursors, presigning) are modelled as explicit state or injected
parameters, with a Boolean per fallible external call where the handler
catches the corresponding exception.
-/

/-! ## Base64 (model of Python's `base64.b64encode` / `base64.b64decode`)

`base64.b64encode` maps each 3-byte group to 4 characters of the standard
alphabet, padding the final group with `=` (ASCII 61).  The decoder below
accepts exactly the canonical encodings (the stdlib decoder additionally
tolerates some non-canonical inputs; every claim below only ever decodes
canonical encoder output or hypothesises that decoding succeeded). -/

/-- The standard base64 alphabet as ASCII codes: `A-Z`, `a-z`, `0-9`, `+`, `/`. -/
def sextetToAscii (n : Nat) : Nat :=
  if n < 26 then 65 + n
  else if n < 52 then 97 + (n - 26)
  else if n < 62 then 48 + (n - 52)
  else if n = 62 then 43
  else 47

/-- Inverse of `sextetToAscii`: recover the 6-bit value of an alphabet character. -/
def asciiToSextet (c : Nat) : Option Nat :=
  if 65 ≤ c ∧ c ≤ 90 then some (c - 65)
  else if 97 ≤ c ∧ c ≤ 122 then some (c - 97 + 26)
  else if 48 ≤ c ∧ c ≤ 57 then some (c - 48 + 52)
  else if c = 43 then some 62
  else if c = 47 then some 63
  else none

/-- ASCII code of the base64 padding character `=`. -/
def b64Pad : Nat := 61

/-- `base64.b64encode`: bytes to base64 ASCII codes, 3 bytes per 4 characters. -/
def b64EncodeBytes : List Nat → List Nat
  | [] => []
  | [a] => [sextetToAscii (a / 4), sextetToAscii (a % 4 * 16), b64Pad, b64Pad]
  | [a, b] => [sextetToAscii (a / 4), sextetToAscii (a % 4 * 16 + b / 16),
      sextetToAscii (b % 16 * 4), b64Pad]
  | a :: b :: c :: rest =>
      sextetToAscii (a / 4) :: sextetToAscii (a % 4 * 16 + b / 16) ::
      sextetToAscii (b % 16 * 4 + c / 64) :: sextetToAscii (c % 64) ::
      b64EncodeBytes rest

/-- `base64.b64decode`: base64 ASCII codes back to bytes; `none` models the
`binascii.Error` raised on malformed input. -/
def b64DecodeBytes : List Nat → Option (List Nat)
  | [] => some []
  | c1 :: c2 :: c3 :: c4 :: rest =>
      (asciiToSextet c1).bind fun s1 =>
      (asciiToSextet c2).bind fun s2 =>
      if c3 = b64Pad ∧ c4 = b64Pad ∧ rest = [] then
        some [s1 * 4 + s2 / 16]
      else if c4 = b64Pad ∧ rest = [] then
        (asciiToSextet c3).bind fun s3 =>
        some [s1 * 4 + s2 / 16, s2 % 16 * 16 + s3 / 4]
      else
        (asciiToSextet c3).bind fun s3 =>
        (asciiToSextet c4).bind fun s4 =>
        (b64DecodeBytes rest).bind fun tl =>
        some ((s1 * 4 + s2 / 16) :: (s2 % 16 * 16 + s3 / 4) ::
          (s3 % 4 * 64 + s4) :: tl)
  | _ => none

/-! ## Python dicts, records and stores -/

/-- Python truthiness of an optional string parameter (`if s:`): both a missing
parameter (`None`) and the empty string are falsy. -/
def truthyS : Option String → Bool
  | none => false
  | some s => s != ""

/-- A value stored in a Python dict / DynamoDB item: string, number, list of
strings, boolean, base64 text (ASCII codes), or JSON `null`. -/
inductive AttrVal where
  | vs (v : String)
  | vn (v : Nat)
  | vls (v : List String)
  | vb (v : Bool)
  | vbytes (v : List Nat)
  | vnull
deriving DecidableEq, Repr

/-- A Python dict with string keys (a DynamoDB item or a response body). -/
abbrev Item := List (String × AttrVal)

/-- `d.get(k)`: the first value bound to `k`, if any. -/
def getAttr : Item → String → Option AttrVal
  | [], _ => none
  | (k', v) :: rest, k => if k' = k then some v else getAttr rest k

/-- `k in d`. -/
def hasKey (it : Item) (k : String) : Bool :=
  (getAttr it k).isSome

/-- `del d[k]` (removes every binding of `k`; a Python dict has at most one). -/
def removeKey (it : Item) (k : String) : Item :=
  it.filter (fun p => p.1 != k)

/-- The two external stores: the DynamoDB table (a list of items in scan
order) and the S3 bucket (keyed binary blobs). -/
structure Store where
  table : List Item
  blobs : List (String × List Nat)
deriving DecidableEq, Repr

/-- The `image_id` attribute of an item, when it is a string. -/
def idOf (it : Item) : Option String :=
  match getAttr it "image_id" with
  | some (.vs id) => some id
  | _ => none

/-- `table.get_item(Key=\x7b'image_id': id\x7d)`: point lookup by primary key. -/
def tableGet (tbl : List Item) (id : String) : Option Item :=
  tbl.find? (fun it => idOf it == some id)

/-- `table.delete_item(Key=...)`: remove the item with the given key. -/
def tableDelete (tbl : List Item) (id : String) : List Item :=
  tbl.filter (fun it => idOf it != some id)

/-- `table.put_item(Item=item)`: insert, replacing any item with the same key. -/
def tablePut (tbl : List Item) (it : Item) : List Item :=
  match idOf it with
  | some id => it :: tableDelete tbl id
  | none => it :: tbl

/-- `s3.get_object`: fetch a blob by key (`none` models `NoSuchKey`). -/
def blobGet (bl : List (String × List Nat)) (k : String) : Option (List Nat) :=
  match bl.find? (fun p => p.1 == k) with
  | some p => some p.2
  | none => none

/-- `s3.put_object`: store a blob, replacing any blob under the same key. -/
def blobPut (bl : List (String × List Nat)) (k : String) (v : List Nat) :
    List (String × List Nat) :=
  (k, v) :: bl.filter (fun p => p.1 != k)

/-- `s3.delete_object`: drop the blob under the key. -/
def blobDelete (bl : List (String × List Nat)) (k : String) :
    List (String × List Nat) :=
  bl.filter (fun p => p.1 != k)

/-! ## Configuration constants (`src/config.py`) -/

def ALLOWED_EXTENSIONS : List String := ["png", "jpg", "jpeg", "gif", "webp"]

def MAX_IMAGE_SIZE_BYTES : Nat := 10 * 1024 * 1024

def DEFAULT_PAGE_SIZE : Nat := 20

def MAX_PAGE_SIZE : Nat := 100

/-! ## Validators (`src/utils/validators.py`) -/

/-- `validate_image_id` (validators.py line 77): required, non-empty, ≤ 128
characters.  Returns `(is_valid, error_message)` like the Python tuple. -/
def validate_image_id : Option String → Bool × Option String
  | none => (false, some "Image ID is required")
  | some s =>
      if s = "" then (false, some "Image ID is required")
      else if s.length > 128 then (false, some "Image ID is too long")
      else (true, none)

/-- `validate_user_id` (validators.py line 99): same rules as image ids. -/
def validate_user_id : Option String → Bool × Option String
  | none => (false, some "User ID is required")
  | some s =>
      if s = "" then (false, some "User ID is required")
      else if s.length > 128 then (false, some "User ID is too long")
      else (true, none)

/-- The optional metadata object of an upload request.  Handlers and the
validator only ever read the four keys below, so the dict is modelled by four
optional fields; `str()` coercion in the validator is the identity because the
fields are typed as strings here. -/
structure Metadata where
  title : Option String
  description : Option String
  tags : Option (List String)
  location : Option String
deriving DecidableEq, Repr

/-- Python truthiness of the metadata dict (`if not metadata:`): falsy iff no
key is present. -/
def mdTruthy (m : Metadata) : Bool :=
  m.title.isSome || m.description.isSome || m.tags.isSome || m.location.isSome

/-- `validate_metadata` (validators.py line 42): size bounds on `title`,
`description` and `tags`; an absent or empty object is accepted. -/
def validate_metadata (m : Metadata) : Bool × Option String :=
  if mdTruthy m = false then (true, none)
  else if (match m.title with | some t => decide (t.length > 256) | none => false) then
    (false, some "Title must be 256 characters or less")
  else if (match m.description with | some d => decide (d.length > 2048) | none => false) then
    (false, some "Description must be 2048 characters or less")
  else if (match m.tags with | some ts => decide (ts.length > 20) | none => false) then
    (false, some "Maximum 20 tags allowed")
  else if (match m.tags with | some ts => ts.any (fun t => decide (t.length > 50)) | none => false) then
    (false, some "Each tag must be a string of 50 characters or less")
  else (true, none)

/-- ASCII `str.lower()` on one character (non-ASCII left unchanged). -/
def lowerChar (c : Char) : Char :=
  if 65 ≤ c.toNat ∧ c.toNat ≤ 90 then Char.ofNat (c.toNat + 32) else c

/-- `str.lower()`. -/
def pyLower (s : String) : String :=
  String.mk (s.toList.map lowerChar)

/-- `str.split(sep)` for a one-character separator, on the characters. -/
def splitOnCharList (sep : Char) : List Char → List (List Char)
  | [] => [[]]
  | c :: rest =>
      match splitOnCharList sep rest with
      | [] => [[]]
      | g :: gs => if c = sep then [] :: g :: gs else (c :: g) :: gs

/-- `filename.rsplit('.', 1)[-1]`: the part after the last dot (the whole
string when there is no dot). -/
def lastDotPart (filename : String) : String :=
  String.mk ((splitOnCharList '.' filename.toList).getLastD [])

/-- `validate_image_file` (validators.py line 9): data and filename required,
extension allow-listed, base64 decodable, decoded size within the limit. -/
def validate_image_file (image_data : Option (List Nat)) (filename : Option String) :
    Bool × Option String :=
  if image_data = none ∨ image_data = some [] then
    (false, some "Image data is required")
  else if filename = none ∨ filename = some "" then
    (false, some "Filename is required")
  else
    let f := filename.getD ""
    let ext := if f.toList.contains '.' then pyLower (lastDotPart f) else ""
    if ¬ ALLOWED_EXTENSIONS.contains ext then
      (false, some "File extension not allowed")
    else
      match b64DecodeBytes (image_data.getD []) with
      | none => (false, some "Invalid base64 image data")
      | some data =>
          if data.length > MAX_IMAGE_SIZE_BYTES then
            (false, some "Image size exceeds maximum allowed size")
          else (true, none)

/-! ## Responses (`src/utils/response_helpers.py`) -/

/-- A handler result: `create_success_response` (status, `data` dict, optional
message) or `create_error_response` (status, message, reason code). -/
inductive ApiResp where
  | ok (status : Nat) (data : Item) (message : Option String)
  | err (status : Nat) (message : String) (code : String)
deriving DecidableEq, Repr

/-- The HTTP status of a response. -/
def statusOf : ApiResp → Nat
  | .ok s _ _ => s
  | .err s _ _ => s

/-- The `data` dict of a successful response, if any. -/
def getBody : ApiResp → Option Item
  | .ok _ d _ => some d
  | .err _ _ _ => none

/-! ## Filter expressions (`src/handlers/list_images.py` lines 50-86)

The handler builds a boto3 condition object which DynamoDB evaluates
server-side against each scanned item; the expression tree and its evaluation
semantics (`eq` on values, `contains` as substring on strings and membership
on lists, `gte`/`lte` lexicographically on strings, absent attributes failing
every comparison) model that collaborator. -/

inductive FilterExpr where
  | attrEq (name v : String)
  | attrHas (name v : String)
  | attrGte (name v : String)
  | attrLte (name v : String)
  | conj (a b : FilterExpr)
  | disj (a b : FilterExpr)
deriving DecidableEq, Repr

/-- Does `needle` occur at the head of `hay`? -/
def leadMatch : List Char → List Char → Bool
  | [], _ => true
  | _ :: _, [] => false
  | a :: as, b :: bs => (a == b) && leadMatch as bs

/-- Does `needle` occur anywhere in `hay`? -/
def hasRun (needle hay : List Char) : Bool :=
  leadMatch needle hay ||
    match hay with
    | [] => false
    | _ :: rest => hasRun needle rest

/-- Substring test (`Attr(name).contains` on a string attribute). -/
def strHasSub (hay needle : String) : Bool :=
  hasRun needle.toList hay.toList

/-- Lexicographic `<` on character lists, by code point. -/
def listLexLt : List Char → List Char → Bool
  | [], [] => false
  | [], _ :: _ => true
  | _ :: _, [] => false
  | a :: as, b :: bs =>
      decide (a.toNat < b.toNat) || (a == b && listLexLt as bs)

/-- Lexicographic `≤` on strings (DynamoDB string comparison; code-point order
coincides with UTF-8 byte order on the ASCII timestamps compared here). -/
def strLe (a b : String) : Bool :=
  a == b || listLexLt a.toList b.toList

/-- DynamoDB `contains(name, v)` applied to one attribute value: substring on
a string, membership on a list, false otherwise (including absent). -/
def containsTest (o : Option AttrVal) (v : String) : Bool :=
  match o with
  | some (.vs s) => strHasSub s v
  | some (.vls l) => l.contains v
  | _ => false

/-- Evaluate a condition expression against one item. -/
def evalFilter : FilterExpr → Item → Bool
  | .attrEq name v, it => getAttr it name == some (.vs v)
  | .attrHas name v, it => containsTest (getAttr it name) v
  | .attrGte name v, it =>
      match getAttr it name with
      | some (.vs s) => strLe v s
      | _ => false
  | .attrLte name v, it =>
      match getAttr it name with
      | some (.vs s) => strLe s v
      | _ => false
  | .conj a b, it => evalFilter a it && evalFilter b it
  | .disj a b, it => evalFilter a it || evalFilter b it

/-- `None` means "no FilterExpression": the scan page is returned unfiltered. -/
def evalOptFilter (fe : Option FilterExpr) (it : Item) : Bool :=
  match fe with
  | none => true
  | some f => evalFilter f it

/-- Query parameters of the list operation. -/
structure ListParams where
  user_id : Option String
  title : Option String
  tags : Option String
  location : Option String
  created_after : Option String
  created_before : Option String
  limit : Option String
  last_evaluated_key : Option String
deriving DecidableEq, Repr

/-- `filter_expression = cond if not filter_expression else filter_expression & cond`. -/
def addClause (fe : Option FilterExpr) (c : FilterExpr) : Option FilterExpr :=
  match fe with
  | none => some c
  | some f => some (.conj f c)

/-- The ASCII whitespace stripped by `str.strip()`. -/
def isPyWhite (c : Char) : Bool :=
  c == ' ' || c == '\t' || c == '\n' || c == '\r' || c == '\x0b' || c == '\x0c'

/-- Strip leading and trailing whitespace from a character list. -/
def trimChars (l : List Char) : List Char :=
  ((l.dropWhile isPyWhite).reverse.dropWhile isPyWhite).reverse

/-- `str.strip()`. -/
def pyStrip (s : String) : String := String.mk (trimChars s.toList)

/-- `tags_filter.split(',')`. -/
def pySplitComma (s : String) : List String :=
  (splitOnCharList ',' s.toList).map String.mk

/-- The tag condition (lines 64-72): a left OR-fold of `Attr('tags').contains`
over the stripped comma-separated candidates, starting from `None`. -/
def tagsCondOf (ts : String) : Option FilterExpr :=
  ((pySplitComma ts).map pyStrip).foldl
    (fun acc t =>
      match acc with
      | none => some (.attrHas "tags" t)
      | some c => some (.disj c (.attrHas "tags" t)))
    none

/-- The repeated `if param: filter_expression = cond if not filter_expression
else filter_expression & cond` pattern of lines 54-86, for one string-valued
criterion. -/
def addStrCrit (fe : Option FilterExpr) (o : Option String)
    (mk : String → FilterExpr) : Option FilterExpr :=
  match o with
  | some v => if v ≠ "" then addClause fe (mk v) else fe
  | none => fe

/-- Lines 63-72: the tags block (the inner `if tags_condition:` guard). -/
def addTagsCrit (fe : Option FilterExpr) (o : Option String) : Option FilterExpr :=
  match o with
  | some ts =>
      if ts ≠ "" then
        match tagsCondOf ts with
        | some c => addClause fe c
        | none => fe
      else fe
  | none => fe

/-- The accumulator chain of lines 50-86: each truthy query parameter is ANDed
onto the running filter expression, in source order. -/
def buildFilter (p : ListParams) : Option FilterExpr :=
  let fe := addStrCrit none p.user_id (fun u => .attrEq "user_id" u)
  let fe := addStrCrit fe p.title (fun t => .attrHas "title" t)
  let fe := addTagsCrit fe p.tags
  let fe := addStrCrit fe p.location (fun l => .attrHas "location" l)
  let fe := addStrCrit fe p.created_after (fun d => .attrGte "created_at" d)
  let fe := addStrCrit fe p.created_before (fun d => .attrLte "created_at" d)
  fe

/-! ## Scan and pagination -/

/-- Result of one DynamoDB `scan` call. -/
structure ScanOut where
  items : List Item
  scannedCount : Nat
  lastEvaluatedKey : Option String
deriving DecidableEq, Repr

/-- Items strictly after the one carrying the `ExclusiveStartKey`. -/
def dropThroughKey : List Item → String → List Item
  | [], _ => []
  | it :: rest, k => if idOf it == some k then rest else dropThroughKey rest k

/-- Model of DynamoDB `scan`: read up to `limit` items in table order starting
after the optional `ExclusiveStartKey`, apply the filter expression to the
page read, and return a `LastEvaluatedKey` exactly when the table was not
exhausted by this page. -/
def dynaScan (tbl : List Item) (limit : Nat) (flt : Option FilterExpr)
    (startAfter : Option String) : ScanOut :=
  let rest := match startAfter with
    | none => tbl
    | some k => dropThroughKey tbl k
  let page := rest.take limit
  let items := match flt with
    | none => page
    | some f => page.filter (fun it => evalFilter f it)
  let lek :=
    if page.length < rest.length then
      match page.getLast? with
      | some it => idOf it
      | none => none
    else none
  ⟨items, page.length, lek⟩

/-- `json.dumps` of a `LastEvaluatedKey` dict `\x7b'image_id': k\x7d`. -/
def lekDumps (k : String) : String :=
  "\x7b\"image_id\": \"" ++ k ++ "\"\x7d"

/-- Model of `json.loads` on the pagination cursor: accepts exactly the
canonical output of `lekDumps` on a quote- and backslash-free key.  The list
handler is additionally parameterised over the decode function, so no theorem
depends on this particular choice of grammar. -/
def lekParse (s : String) : Option String :=
  let l := s.toList
  let pre := "\x7b\"image_id\": \"".toList
  let suf := "\"\x7d".toList
  if leadMatch pre l ∧ leadMatch suf.reverse l.reverse ∧ pre.length + suf.length ≤ l.length then
    let mid := (l.drop pre.length).take (l.length - pre.length - suf.length)
    if mid.contains '"' ∨ mid.contains '\\' then none else some (String.mk mid)
  else none

/-- Digits-with-single-internal-underscores tail, for `pyInt`. -/
def pyIntDigitsRest : List Char → Bool
  | [] => true
  | '_' :: d :: rest => d.isDigit && pyIntDigitsRest rest
  | '_' :: [] => false
  | c :: rest => c.isDigit && pyIntDigitsRest rest

/-- Non-empty ASCII digit run with single internal underscores. -/
def pyIntDigits : List Char → Bool
  | [] => false
  | c :: rest => c.isDigit && pyIntDigitsRest rest

/-- Numeric value of a digit run, skipping underscores. -/
def digitsValue (l : List Char) : Nat :=
  l.foldl (fun a c => if c = '_' then a else a * 10 + (c.toNat - 48)) 0

/-- Model of Python `int(s)` for a decimal string: optional surrounding
whitespace, optional sign, digits.  `none` models `ValueError`. -/
def pyInt (s : String) : Option Int :=
  match trimChars s.toList with
  | '+' :: rest => if pyIntDigits rest then some (digitsValue rest) else none
  | '-' :: rest => if pyIntDigits rest then some (-(digitsValue rest : Int)) else none
  | rest => if pyIntDigits rest then some (digitsValue rest) else none

/-- Line 42: `min(int(params.get('limit', DEFAULT_PAGE_SIZE)), MAX_PAGE_SIZE)`.
`none` models the `ValueError` caught as 400 `INVALID_PARAMETER`. -/
def computeLimit (limitParam : Option String) : Option Int :=
  match limitParam with
  | none => some (min (DEFAULT_PAGE_SIZE : Int) (MAX_PAGE_SIZE : Int))
  | some s => (pyInt s).map (fun n => min n (MAX_PAGE_SIZE : Int))

/-- The `data` dict of a successful list response (lines 113-124). -/
structure ListData where
  images : List Item
  count : Nat
  scanned_count : Nat
  has_more : Bool
  last_evaluated_key : Option String
deriving DecidableEq, Repr

inductive ListResp where
  | ok (data : ListData)
  | err (status : Nat) (message : String) (code : String)
deriving DecidableEq, Repr

/-- `list_images` (list_images.py:13).  `loads` is the external JSON decoder
applied to the caller's cursor (`none` models `json.JSONDecodeError`); the
returned Bool records whether `table.scan` was executed. -/
def listImages (loads : String → Option String) (p : ListParams) (st : Store) :
    ListResp × Bool :=
  match computeLimit p.limit with
  | none => (.err 400 "Invalid parameter value" "INVALID_PARAMETER", false)
  | some limit =>
    let flt := buildFilter p
    let startKey : Option (Option String) :=
      if truthyS p.last_evaluated_key then
        match loads (p.last_evaluated_key.getD "") with
        | none => none
        | some k => some (some k)
      else some none
    match startKey with
    | none => (.err 400 "Invalid last_evaluated_key format" "INVALID_PAGINATION", false)
    | some sk =>
      let out := dynaScan st.table limit.toNat flt sk
      let images := out.items.map (fun it => removeKey it "s3_key")
      (.ok ⟨images, images.length, out.scannedCount, out.lastEvaluatedKey.isSome,
        out.lastEvaluatedKey.map lekDumps⟩, true)

/-! ## Get handler (`src/handlers/get_image.py`) -/

/-- Model of `generate_presigned_url` for a key (external collaborator; only
presence of the URL matters to any claim). -/
def presignUrl (key : String) : String :=
  "https://s3.presigned/" ++ key

/-- The keys of the metadata dict literal in get_image.py lines 95-107, in
construction order. -/
def metaFields : List String :=
  ["image_id", "user_id", "filename", "content_type", "file_size",
   "title", "description", "tags", "location", "created_at", "updated_at"]

/-- One entry of that dict after the remove-`None` comprehension (line 110):
present exactly when the item carries the attribute. -/
def pickAttr (it : Item) (k : String) : Item :=
  match getAttr it k with
  | some v => [(k, v)]
  | none => []

/-- The stripped metadata dict of the non-download path. -/
def metaOf (it : Item) : Item :=
  (metaFields.map (fun k => pickAttr it k)).flatten

/-- `get_image` (get_image.py:14).  Inputs: the `image_id` path parameter, the
`download` and `user_id` query parameters (the handler never reads `user_id`;
it is accepted here to mirror the documented HTTP surface), and
`presignFails`, which injects a failure of the external presign call (the
handler soft-fails and omits the URL).  A record whose `s3_key` attribute is
missing or non-string makes the S3 calls raise client-side: a 500 on the
download path, a swallowed presign failure on the metadata path. -/
def getImage (image_id download user_id : Option String) (presignFails : Bool)
    (st : Store) : ApiResp :=
  match validate_image_id image_id with
  | (false, msg) => .err 400 (msg.getD "") "INVALID_IMAGE_ID"
  | (true, _) =>
    let iid := image_id.getD ""
    let dl := pyLower (download.getD "false") == "true"
    match tableGet st.table iid with
    | none => .err 404 "Image not found" "IMAGE_NOT_FOUND"
    | some item =>
      if dl then
        match getAttr item "s3_key" with
        | some (.vs k) =>
            match blobGet st.blobs k with
            | none => .err 404 "Image file not found in storage" "FILE_NOT_FOUND"
            | some data =>
                .ok 200
                  [("image_id", .vs iid),
                   ("filename", (getAttr item "filename").getD .vnull),
                   ("content_type", (getAttr item "content_type").getD .vnull),
                   ("image_data", .vbytes (b64EncodeBytes data))]
                  none
        | _ => .err 500 "Internal server error" "INTERNAL_ERROR"
      else
        let keyOk := match getAttr item "s3_key" with
          | some (.vs _) => true
          | _ => false
        let md := metaOf item
        let md :=
          if presignFails ∨ keyOk = false then md
          else
            let k := match getAttr item "s3_key" with
              | some (.vs k) => k
              | _ => ""
            md ++ [("download_url", .vs (presignUrl k)), ("url_expires_in", .vn 3600)]
        .ok 200 md none

/-! ## Delete handler (`src/handlers/delete_image.py`) -/

/-- A side-effecting call on one of the two stores. -/
inductive StoreAction where
  | blobDel (key : String)
  | recordDel (id : String)
deriving DecidableEq, Repr

/-- Result of the delete handler: the response, the stores after the
operation, and the store calls that were attempted, in order. -/
structure DeleteOut where
  resp : ApiResp
  store : Store
  trace : List StoreAction
deriving DecidableEq, Repr

/-- `delete_image` (delete_image.py:13).  `blobDeleteFails` injects a failure
of the external `s3_client.delete_object` call (logged and swallowed by lines
59-66); `recordDeleteFails` injects a failure of `table.delete_item` (caught
by the outer handler as a 500).  A failed store call mutates nothing.  When
the item has no string `s3_key`, the blob-delete call raises client-side
before reaching the store and is swallowed by the same `except`. -/
def deleteImage (image_id user_id : Option String)
    (blobDeleteFails recordDeleteFails : Bool) (st : Store) : DeleteOut :=
  match validate_image_id image_id with
  | (false, msg) => ⟨.err 400 (msg.getD "") "INVALID_IMAGE_ID", st, []⟩
  | (true, _) =>
    let iid := image_id.getD ""
    match tableGet st.table iid with
    | none => ⟨.err 404 "Image not found" "IMAGE_NOT_FOUND", st, []⟩
    | some item =>
      if truthyS user_id && (getAttr item "user_id" != some (.vs (user_id.getD ""))) then
        ⟨.err 403 "Not authorized to delete this image" "FORBIDDEN", st, []⟩
      else
        match getAttr item "s3_key" with
        | some (.vs k) =>
            let blobs := if blobDeleteFails then st.blobs else blobDelete st.blobs k
            if recordDeleteFails then
              ⟨.err 500 "Internal server error" "INTERNAL_ERROR",
               ⟨st.table, blobs⟩, [.blobDel k, .recordDel iid]⟩
            else
              ⟨.ok 200 [("image_id", .vs iid), ("deleted", .vb true)]
                 (some "Image deleted successfully"),
               ⟨tableDelete st.table iid, blobs⟩, [.blobDel k, .recordDel iid]⟩
        | _ =>
            if recordDeleteFails then
              ⟨.err 500 "Internal server error" "INTERNAL_ERROR", st, [.recordDel iid]⟩
            else
              ⟨.ok 200 [("image_id", .vs iid), ("deleted", .vb true)]
                 (some "Image deleted successfully"),
               ⟨tableDelete st.table iid, st.blobs⟩, [.recordDel iid]⟩

/-! ## Upload handler (`src/handlers/upload_image.py`) -/

/-- The parsed JSON body of an upload request (an unparsable body is rejected
as 400 `INVALID_JSON` before any of the logic modelled here). -/
structure UploadBody where
  image_data : Option (List Nat)
  filename : Option String
  user_id : Option String
  metadata : Metadata
deriving DecidableEq, Repr

/-- The static extension → content-type map of upload_image.py lines 77-84
(`application/octet-stream` for unknown extensions). -/
def contentTypeOf (ext : String) : String :=
  if ext = "jpg" then "image/jpeg"
  else if ext = "jpeg" then "image/jpeg"
  else if ext = "png" then "image/png"
  else if ext = "gif" then "image/gif"
  else if ext = "webp" then "image/webp"
  else "application/octet-stream"

structure UploadOut where
  resp : ApiResp
  store : Store
deriving DecidableEq, Repr

/-- `if metadata.get(k):` — one optional dict entry, present iff truthy
(upload_image.py lines 112-119). -/
def optEntry (k : String) (o : Option String) : Item :=
  match o with
  | some v => if v ≠ "" then [(k, .vs v)] else []
  | none => []

/-- Same for the `tags` list: present iff non-empty. -/
def optTagsEntry (o : Option (List String)) : Item :=
  match o with
  | some l => if l ≠ [] then [("tags", .vls l)] else []
  | none => []

/-- The DynamoDB item built in upload_image.py lines 100-119: the fixed fields
followed by each optional metadata field whose value is truthy, in source
order. -/
def uploadItem (genId user_id s3_key filename content_type : String)
    (fileSize : Nat) (now : String) (md : Metadata) : Item :=
  [("image_id", .vs genId), ("user_id", .vs user_id), ("s3_key", .vs s3_key),
   ("filename", .vs filename), ("content_type", .vs content_type),
   ("file_size", .vn fileSize), ("created_at", .vs now), ("updated_at", .vs now)]
  ++ optEntry "title" md.title
  ++ optEntry "description" md.description
  ++ optTagsEntry md.tags
  ++ optEntry "location" md.location

/-- `upload_image` (upload_image.py:16).  `genId` models `uuid.uuid4()` and
`now` models `datetime.utcnow().isoformat()`, injected as parameters. -/
def uploadImage (body : UploadBody) (genId now : String) (st : Store) : UploadOut :=
  match validate_user_id body.user_id with
  | (false, msg) => ⟨.err 400 (msg.getD "") "INVALID_USER_ID", st⟩
  | (true, _) =>
  match validate_image_file body.image_data body.filename with
  | (false, msg) => ⟨.err 400 (msg.getD "") "INVALID_IMAGE", st⟩
  | (true, _) =>
  match validate_metadata body.metadata with
  | (false, msg) => ⟨.err 400 (msg.getD "") "INVALID_METADATA", st⟩
  | (true, _) =>
    let user_id := body.user_id.getD ""
    let filename := body.filename.getD ""
    let ext := pyLower (lastDotPart filename)
    let s3_key := "images/" ++ user_id ++ "/" ++ genId ++ "." ++ ext
    match b64DecodeBytes (body.image_data.getD []) with
    | none => ⟨.err 500 "Internal server error" "INTERNAL_ERROR", st⟩
    | some decoded =>
      let content_type := contentTypeOf ext
      let blobs := blobPut st.blobs s3_key decoded
      let item := uploadItem genId user_id s3_key filename content_type
        decoded.length now body.metadata
      ⟨.ok 201
         [("image_id", .vs genId), ("filename", .vs filename),
          ("s3_key", .vs s3_key), ("created_at", .vs now)]
         (some "Image uploaded successfully"),
       ⟨tablePut st.table item, blobs⟩⟩

/-! ## Claim-side definitions

These definitions are written from the specification's wording (not from the
source) and are compared with the source-derived definitions above by the
refinement-style theorems below. -/

/-- Spec §4.2: the per-criterion tests.  A parameter supplied as the empty
string builds no condition in the source (Python truthiness), matching the
spec's rule that an absent criterion does not constrain; accordingly
"supplied" is read as "present and non-empty" throughout. -/
def critOwner (p : ListParams) (it : Item) : Bool :=
  if truthyS p.user_id then getAttr it "user_id" == some (.vs (p.user_id.getD ""))
  else true

def critTitle (p : ListParams) (it : Item) : Bool :=
  if truthyS p.title then containsTest (getAttr it "title") (p.title.getD "")
  else true

/-- The tags criterion of the spec: an OR of membership tests across the
comma-separated candidates. -/
def critTags (p : ListParams) (it : Item) : Bool :=
  if truthyS p.tags then
    ((pySplitComma (p.tags.getD "")).map pyStrip).any
      (fun t => containsTest (getAttr it "tags") t)
  else true

def critLocation (p : ListParams) (it : Item) : Bool :=
  if truthyS p.location then containsTest (getAttr it "location") (p.location.getD "")
  else true

def critAfter (p : ListParams) (it : Item) : Bool :=
  if truthyS p.created_after then
    match getAttr it "created_at" with
    | some (.vs s) => strLe (p.created_after.getD "") s
    | _ => false
  else true

def critBefore (p : ListParams) (it : Item) : Bool :=
  if truthyS p.created_before then
    match getAttr it "created_at" with
    | some (.vs s) => strLe s (p.created_before.getD "")
    | _ => false
  else true

/-- Spec §4.2 combination rule: the conjunction of exactly the supplied
criteria (tags internally disjunctive); absent criteria do not constrain. -/
def claimFilter (p : ListParams) (it : Item) : Bool :=
  critOwner p it && critTitle p it && critTags p it && critLocation p it &&
    critAfter p it && critBefore p it

/-- Claim side of C10: an optional string field is stored iff truthy. -/
def optAttr (o : Option String) : Option AttrVal :=
  match o with
  | some v => if v ≠ "" then some (.vs v) else none
  | none => none

/-- Claim side of C10 for the tags list. -/
def optTagsAttr (o : Option (List String)) : Option AttrVal :=
  match o with
  | some l => if l ≠ [] then some (.vls l) else none
  | none => none

/-! ## Concrete fixtures used by witnesses and counterexamples -/

/-- A stored record owned by `user123`, as the upload handler would create it. -/
def demoItem : Item :=
  [("image_id", .vs "img1"), ("user_id", .vs "user123"),
   ("s3_key", .vs "images/user123/img1.png"), ("filename", .vs "a.png"),
   ("content_type", .vs "image/png"), ("file_size", .vn 3),
   ("created_at", .vs "2024-01-01T00:00:00"), ("updated_at", .vs "2024-01-01T00:00:00"),
   ("tags", .vls ["x"])]

/-- A store holding `demoItem` and its blob. -/
def demoStore : Store :=
  ⟨[demoItem], [("images/user123/img1.png", [1, 2, 3])]⟩

/-- A valid upload request: the base64 encoding of the four PNG magic bytes,
with an empty title and empty tag list in the metadata. -/
def demoUpload : UploadBody :=
  ⟨some (b64EncodeBytes [137, 80, 78, 71]), some "t.png", some "user123",
   ⟨some "", none, some [], none⟩⟩

/-! ## Base64 lemmas -/

theorem asciiToSextet_sextetToAscii : ∀ n, n < 64 → asciiToSextet (sextetToAscii n) = some n := by
  decide

theorem sextetToAscii_ne_pad : ∀ n, n < 64 → sextetToAscii n ≠ b64Pad := by
  decide

theorem b64_roundtrip : ∀ l : List Nat, (∀ b ∈ l, b < 256) →
    b64DecodeBytes (b64EncodeBytes l) = some l := by
  intro l
  induction l using b64EncodeBytes.induct with
  | case1 =>
      intro _
      rfl
  | case2 a =>
      intro h
      have ha : a < 256 := h a (by simp)
      have h1 : a / 4 < 64 := by omega
      have h2 : a % 4 * 16 < 64 := by omega
      simp [b64EncodeBytes, b64DecodeBytes,
        asciiToSextet_sextetToAscii _ h1, asciiToSextet_sextetToAscii _ h2]
      omega
  | case3 a b =>
      intro h
      have ha : a < 256 := h a (by simp)
      have hb : b < 256 := h b (by simp)
      have h1 : a / 4 < 64 := by omega
      have h2 : a % 4 * 16 + b / 16 < 64 := by omega
      have h3 : b % 16 * 4 < 64 := by omega
      have n3 : sextetToAscii (b % 16 * 4) ≠ b64Pad := sextetToAscii_ne_pad _ h3
      simp [b64EncodeBytes, b64DecodeBytes, n3,
        asciiToSextet_sextetToAscii _ h1, asciiToSextet_sextetToAscii _ h2,
        asciiToSextet_sextetToAscii _ h3]
      omega
  | case4 a b c rest ih =>
      intro h
      have ha : a < 256 := h a (by simp)
      have hb : b < 256 := h b (by simp)
      have hc : c < 256 := h c (by simp)
      have h1 : a / 4 < 64 := by omega
      have h2 : a % 4 * 16 + b / 16 < 64 := by omega
      have h3 : b % 16 * 4 + c / 64 < 64 := by omega
      have h4 : c % 64 < 64 := by omega
      have n3 : sextetToAscii (b % 16 * 4 + c / 64) ≠ b64Pad := sextetToAscii_ne_pad _ h3
      have n4 : sextetToAscii (c % 64) ≠ b64Pad := sextetToAscii_ne_pad _ h4
      have hrest : b64DecodeBytes (b64EncodeBytes rest) = some rest := by
        apply ih
        intro x hx
        exact h x (by simp [hx])
      simp [b64EncodeBytes, b64DecodeBytes, n3, n4, hrest,
        asciiToSextet_sextetToAscii _ h1, asciiToSextet_sextetToAscii _ h2,
        asciiToSextet_sextetToAscii _ h3, asciiToSextet_sextetToAscii _ h4]
      omega

theorem asciiToSextet_lt (c s : Nat) (h : asciiToSextet c = some s) : s < 64 := by
  unfold asciiToSextet at h
  repeat' split at h
  all_goals first
    | (simp only [Option.some.injEq] at h
       omega)
    | simp at h

theorem b64DecodeBytes_bytes_lt : ∀ l tl, b64DecodeBytes l = some tl → ∀ b ∈ tl, b < 256
  | [], tl, h => by
      rw [show b64DecodeBytes [] = some [] from rfl] at h
      cases h
      intro b hb
      cases hb
  | [c1], tl, h => by
      rw [show b64DecodeBytes [c1] = none from rfl] at h
      cases h
  | [c1, c2], tl, h => by
      rw [show b64DecodeBytes [c1, c2] = none from rfl] at h
      cases h
  | [c1, c2, c3], tl, h => by
      rw [show b64DecodeBytes [c1, c2, c3] = none from rfl] at h
      cases h
  | c1 :: c2 :: c3 :: c4 :: rest, tl, h => by
      simp only [b64DecodeBytes] at h
      cases h1 : asciiToSextet c1 with
      | none => simp [h1] at h
      | some s1 =>
      cases h2 : asciiToSextet c2 with
      | none => simp [h1, h2] at h
      | some s2 =>
      simp only [h1, h2, Option.some_bind] at h
      have hs1 : s1 < 64 := asciiToSextet_lt _ _ h1
      have hs2 : s2 < 64 := asciiToSextet_lt _ _ h2
      split at h
      · cases h
        intro b hb
        simp at hb
        omega
      · split at h
        · cases h3 : asciiToSextet c3 with
          | none => simp [h3] at h
          | some s3 =>
          have hs3 : s3 < 64 := asciiToSextet_lt _ _ h3
          simp only [h3, Option.some_bind] at h
          cases h
          intro b hb
          simp at hb
          omega
        · cases h3 : asciiToSextet c3 with
          | none => simp [h3] at h
          | some s3 =>
          cases h4 : asciiToSextet c4 with
          | none => simp [h3, h4] at h
          | some s4 =>
          cases h5 : b64DecodeBytes rest with
          | none => simp [h3, h4, h5] at h
          | some tl2 =>
          have hs3 : s3 < 64 := asciiToSextet_lt _ _ h3
          have hs4 : s4 < 64 := asciiToSextet_lt _ _ h4
          simp only [h3, h4, h5, Option.some_bind] at h
          cases h
          intro b hb
          simp at hb
          rcases hb with hb | hb | hb | hb
          · omega
          · omega
          · omega
          · exact b64DecodeBytes_bytes_lt rest tl2 h5 b hb

/-! ## Dict lemmas -/

theorem getAttr_append (a b : Item) (k : String) :
    getAttr (a ++ b) k =
      match getAttr a k with
      | some v => some v
      | none => getAttr b k := by
  induction a with
  | nil => simp [getAttr]
  | cons p rest ih =>
      obtain ⟨k', v⟩ := p
      by_cases hk : k' = k
      · simp [getAttr, hk]
      · simp [getAttr, hk, ih]

theorem getAttr_removeKey_self (it : Item) (k : String) :
    getAttr (removeKey it k) k = none := by
  induction it with
  | nil => rfl
  | cons p rest ih =>
      obtain ⟨k', v⟩ := p
      by_cases hk : k' = k
      · simpa [removeKey, hk] using ih
      · simpa [removeKey, getAttr, hk] using ih

theorem hasKey_removeKey_self (it : Item) (k : String) :
    hasKey (removeKey it k) k = false := by
  simp [hasKey, getAttr_removeKey_self]

theorem getAttr_pickAttr_ne (it : Item) (f k : String) (h : f ≠ k) :
    getAttr (pickAttr it f) k = none := by
  unfold pickAttr
  cases getAttr it f <;> simp [getAttr, h]

theorem getAttr_metaOf_s3key (it : Item) :
    getAttr (metaOf it) "s3_key" = none := by
  simp only [metaOf, metaFields, List.map_cons, List.map_nil, List.flatten_cons,
    List.flatten_nil, List.append_nil]
  simp only [getAttr_append]
  simp [getAttr_pickAttr_ne it _ _ (by decide : ("image_id" : String) ≠ "s3_key"),
    getAttr_pickAttr_ne it _ _ (by decide : ("user_id" : String) ≠ "s3_key"),
    getAttr_pickAttr_ne it _ _ (by decide : ("filename" : String) ≠ "s3_key"),
    getAttr_pickAttr_ne it _ _ (by decide : ("content_type" : String) ≠ "s3_key"),
    getAttr_pickAttr_ne it _ _ (by decide : ("file_size" : String) ≠ "s3_key"),
    getAttr_pickAttr_ne it _ _ (by decide : ("title" : String) ≠ "s3_key"),
    getAttr_pickAttr_ne it _ _ (by decide : ("description" : String) ≠ "s3_key"),
    getAttr_pickAttr_ne it _ _ (by decide : ("tags" : String) ≠ "s3_key"),
    getAttr_pickAttr_ne it _ _ (by decide : ("location" : String) ≠ "s3_key"),
    getAttr_pickAttr_ne it _ _ (by decide : ("created_at" : String) ≠ "s3_key"),
    getAttr_pickAttr_ne it _ _ (by decide : ("updated_at" : String) ≠ "s3_key")]

/-! ## C1 — authorization on get -/

/-- C1 (counterexample): `get_image` never checks the caller identity.  For a
record owned by `user123`, a get that supplies `user_id=otherUser` does not
fail with a 403: it succeeds with status 200 and the body carries a presigned
`download_url`, contradicting the claim that neither image data nor a
presigned URL is returned on a mismatch. -/
theorem getImage_mismatch_counterexample :
    getAttr demoItem "user_id" = some (.vs "user123") ∧
    ("otherUser" : String) ≠ "user123" ∧
    getImage (some "img1") none (some "otherUser") false demoStore =
      .ok 200 (metaOf demoItem ++
        [("download_url", .vs (presignUrl "images/user123/img1.png")),
         ("url_expires_in", .vn 3600)]) none := by
  refine ⟨rfl, by decide, ?_⟩
  decide

/-- C1 (amended): the get operation performs no authorization check at all:
its response is independent of the supplied `user_id` and is never a
403-class failure.  Only the delete operation compares the caller identity
with the record owner. -/
theorem getImage_ignores_user_id (iid dl u1 u2 : Option String) (pf : Bool) (st : Store) :
    getImage iid dl u1 pf st = getImage iid dl u2 pf st ∧
    statusOf (getImage iid dl u1 pf st) ≠ 403 := by
  constructor
  · rfl
  · rcases hval : validate_image_id iid with ⟨b, m⟩
    cases b
    · simp [getImage, hval, statusOf]
    · rcases htg : tableGet st.table (iid.getD "") with _ | item
      · simp [getImage, hval, htg, statusOf]
      · by_cases hdl : pyLower (dl.getD "false") = "true"
        · rcases hsk : getAttr item "s3_key" with _ | v
          · simp [getImage, hval, htg, hdl, hsk, statusOf]
          · cases v with
            | vs k =>
                rcases hbg : blobGet st.blobs k with _ | data
                · simp [getImage, hval, htg, hdl, hsk, hbg, statusOf]
                · simp [getImage, hval, htg, hdl, hsk, hbg, statusOf]
            | vn v => simp [getImage, hval, htg, hdl, hsk, statusOf]
            | vls v => simp [getImage, hval, htg, hdl, hsk, statusOf]
            | vb v => simp [getImage, hval, htg, hdl, hsk, statusOf]
            | vbytes v => simp [getImage, hval, htg, hdl, hsk, statusOf]
            | vnull => simp [getImage, hval, htg, hdl, hsk, statusOf]
        · simp [getImage, hval, htg, hdl, statusOf]

/-- C1 witness: at a concrete store and request, the get response is the same
for two different `user_id` values and is not a 403. -/
theorem getImage_ignores_user_id_witness :
    getImage (some "img1") none (some "u1") false demoStore =
      getImage (some "img1") none (some "u2") false demoStore ∧
    statusOf (getImage (some "img1") none (some "u1") false demoStore) ≠ 403 :=
  getImage_ignores_user_id (some "img1") none (some "u1") (some "u2") false demoStore

/-! ## C2 — delete authorization and documented bypass -/

/-- C2: for a delete of an existing record, a supplied (non-empty) `user_id`
that differs from the record's owner yields 403 FORBIDDEN with the stores
untouched and no store call attempted; a request without `user_id` skips the
authorization check and the delete completes successfully. -/
theorem deleteImage_auth_and_bypass (st : Store) (iid : String) (item : Item)
    (hv : validate_image_id (some iid) = (true, none))
    (hit : tableGet st.table iid = some item) :
    (∀ u owner : String, u ≠ "" → getAttr item "user_id" = some (.vs owner) →
      u ≠ owner → ∀ bf rf : Bool,
      deleteImage (some iid) (some u) bf rf st =
        ⟨.err 403 "Not authorized to delete this image" "FORBIDDEN", st, []⟩) ∧
    (∀ bf : Bool, (deleteImage (some iid) none bf false st).resp =
      .ok 200 [("image_id", .vs iid), ("deleted", .vb true)]
        (some "Image deleted successfully")) := by
  constructor
  · intro u owner hu hown hne bf rf
    have hsym : owner ≠ u := Ne.symm hne
    simp [deleteImage, hv, hit, hown, truthyS, hu, hsym]
  · intro bf
    simp [deleteImage, hv, hit, truthyS]
    split <;> rfl

/-! ## C3 — delete ordering and asymmetric failure handling -/

/-- C3: on an authorized delete of an existing record (with a string
`s3_key`), the blob delete is attempted first and the record delete is always
attempted after it, whether or not the blob delete failed; the final response
is decided by the record delete alone — 500 INTERNAL_ERROR when it fails, a
success response otherwise, in either case independent of the blob-delete
outcome. -/
theorem deleteImage_blob_first_record_decides (st : Store) (iid k : String)
    (item : Item) (u : Option String) (bf rf : Bool)
    (hv : validate_image_id (some iid) = (true, none))
    (hit : tableGet st.table iid = some item)
    (hk : getAttr item "s3_key" = some (.vs k))
    (hauth : (truthyS u && (getAttr item "user_id" != some (.vs (u.getD "")))) = false) :
    (deleteImage (some iid) u bf rf st).trace = [.blobDel k, .recordDel iid] ∧
    (deleteImage (some iid) u bf rf st).resp =
      (if rf then .err 500 "Internal server error" "INTERNAL_ERROR"
       else .ok 200 [("image_id", .vs iid), ("deleted", .vb true)]
         (some "Image deleted successfully")) := by
  have hcond : ¬(truthyS u = true ∧ ¬ getAttr item "user_id" = some (AttrVal.vs (u.getD ""))) := by
    intro hc
    have ht : (truthyS u && (getAttr item "user_id" != some (.vs (u.getD "")))) = true := by
      simp [hc.1, bne_iff_ne, hc.2]
    rw [ht] at hauth
    cases hauth
  cases rf <;> simp [deleteImage, hv, hit, hk, hcond]

/-- C2 witness: deleting `user123`'s image as `otherUser` is rejected with 403
and nothing changes; the same delete without a `user_id` succeeds. -/
theorem deleteImage_auth_and_bypass_witness :
    deleteImage (some "img1") (some "otherUser") false false demoStore =
      ⟨.err 403 "Not authorized to delete this image" "FORBIDDEN", demoStore, []⟩ ∧
    (deleteImage (some "img1") none false false demoStore).resp =
      .ok 200 [("image_id", .vs "img1"), ("deleted", .vb true)]
        (some "Image deleted successfully") :=
  ⟨(deleteImage_auth_and_bypass demoStore "img1" demoItem rfl rfl).1 "otherUser" "user123"
      (by decide) rfl (by decide) false false,
   (deleteImage_auth_and_bypass demoStore "img1" demoItem rfl rfl).2 false⟩

/-- C3 witness: an authorized delete with an injected blob-delete failure still
attempts the blob delete first and the record delete after it, and succeeds. -/
theorem deleteImage_blob_first_witness :
    (deleteImage (some "img1") (some "user123") true false demoStore).trace =
      [.blobDel "images/user123/img1.png", .recordDel "img1"] ∧
    (deleteImage (some "img1") (some "user123") true false demoStore).resp =
      .ok 200 [("image_id", .vs "img1"), ("deleted", .vb true)]
        (some "Image deleted successfully") := by
  have h := deleteImage_blob_first_record_decides demoStore "img1" "images/user123/img1.png"
    demoItem (some "user123") true false rfl rfl rfl (by decide)
  exact ⟨h.1, h.2⟩

/-! ## C4 — the filter is an AND of supplied criteria with OR over tags -/

theorem evalOptFilter_addClause (fe : Option FilterExpr) (c : FilterExpr) (it : Item) :
    evalOptFilter (addClause fe c) it = (evalOptFilter fe it && evalFilter c it) := by
  cases fe <;> simp [addClause, evalOptFilter, evalFilter]

theorem evalOptFilter_addStrCrit (fe : Option FilterExpr) (o : Option String)
    (mk : String → FilterExpr) (it : Item) :
    evalOptFilter (addStrCrit fe o mk) it =
      (evalOptFilter fe it &&
        (if truthyS o then evalFilter (mk (o.getD "")) it else true)) := by
  cases o with
  | none => simp [addStrCrit, truthyS]
  | some v =>
      by_cases hv : v = ""
      · simp [addStrCrit, truthyS, hv]
      · simp [addStrCrit, truthyS, hv, evalOptFilter_addClause]

theorem splitOnCharList_ne_nil (sep : Char) (l : List Char) : splitOnCharList sep l ≠ [] := by
  cases l with
  | nil => simp [splitOnCharList]
  | cons c rest =>
      simp only [splitOnCharList]
      split
      · simp
      · split <;> simp

theorem tagsFold_some (l : List String) (c : FilterExpr) :
    l.foldl
      (fun acc t =>
        match acc with
        | none => some (.attrHas "tags" t)
        | some c => some (.disj c (.attrHas "tags" t)))
      (some c) =
    some (l.foldl (fun c t => .disj c (.attrHas "tags" t)) c) := by
  induction l generalizing c with
  | nil => rfl
  | cons t rest ih => simp [List.foldl_cons, ih]

theorem evalFilter_disjFold (l : List String) (c : FilterExpr) (it : Item) :
    evalFilter (l.foldl (fun c t => .disj c (.attrHas "tags" t)) c) it =
      (evalFilter c it || l.any (fun t => containsTest (getAttr it "tags") t)) := by
  induction l generalizing c with
  | nil => simp
  | cons t rest ih => simp [List.foldl_cons, ih, evalFilter, Bool.or_assoc]

theorem tagsCondOf_eq_some (ts : String) : ∃ c, tagsCondOf ts = some c := by
  unfold tagsCondOf
  rcases hl : (pySplitComma ts).map pyStrip with _ | ⟨t, rest⟩
  · exfalso
    have hne := splitOnCharList_ne_nil ',' ts.toList
    simp [pySplitComma] at hl
    exact hne hl
  · simp only [List.foldl_cons]
    rw [tagsFold_some]
    exact ⟨_, rfl⟩

theorem tagsCondOf_eval (ts : String) (c : FilterExpr) (it : Item)
    (h : tagsCondOf ts = some c) :
    evalFilter c it =
      ((pySplitComma ts).map pyStrip).any (fun t => containsTest (getAttr it "tags") t) := by
  unfold tagsCondOf at h
  rcases hl : (pySplitComma ts).map pyStrip with _ | ⟨t, rest⟩
  · rw [hl] at h
    cases h
  · rw [hl] at h
    simp only [List.foldl_cons] at h
    rw [tagsFold_some] at h
    cases h
    simp [evalFilter_disjFold, evalFilter, List.any_cons]

theorem evalOptFilter_addTagsCrit (fe : Option FilterExpr) (o : Option String) (it : Item) :
    evalOptFilter (addTagsCrit fe o) it =
      (evalOptFilter fe it &&
        (if truthyS o then
          ((pySplitComma (o.getD "")).map pyStrip).any
            (fun t => containsTest (getAttr it "tags") t)
         else true)) := by
  cases o with
  | none => simp [addTagsCrit, truthyS]
  | some ts =>
      by_cases hts : ts = ""
      · simp [addTagsCrit, truthyS, hts]
      · obtain ⟨c, hc⟩ := tagsCondOf_eq_some ts
        simp [addTagsCrit, truthyS, hts, hc, evalOptFilter_addClause,
          tagsCondOf_eval ts c it hc]

/-- C4: the filter built by the list handler is equivalent, on every item, to
the conjunction of exactly the supplied criteria — `user_id` an exact match,
`title`/`location` substring matches, `created_after`/`created_before`
inclusive bounds on `created_at`, and `tags` an OR of membership tests over
its comma-separated candidates — where an absent (or empty, by Python
truthiness) criterion does not constrain; with no criteria the filter accepts
every record. -/
theorem buildFilter_matches_spec (p : ListParams) (it : Item) :
    evalOptFilter (buildFilter p) it = claimFilter p it := by
  obtain ⟨uo, tio, tso, lo, ao, bo, lim, lek⟩ := p
  simp only [buildFilter, evalOptFilter_addStrCrit, evalOptFilter_addTagsCrit,
    claimFilter, critOwner, critTitle, critTags, critLocation, critAfter, critBefore]
  simp [evalOptFilter, evalFilter, Bool.and_assoc]

/-! ## C5 — page limit default and clamping -/

/-- C5 (counterexample): supplying `limit=abc` fails the whole list request
with 400 INVALID_PARAMETER (the `int()` call raises `ValueError`, caught at
list_images.py line 128), refuting "supplying a limit is never itself an
error"; no scan is performed. -/
theorem listImages_limit_error_counterexample :
    listImages lekParse ⟨none, none, none, none, none, none, some "abc", none⟩ demoStore =
      (.err 400 "Invalid parameter value" "INVALID_PARAMETER", false) := by
  rfl

/-- C5 (amended): without a `limit` parameter the effective limit is the
default 20; a limit string that parses as an integer `n` is silently clamped
to `min n 100` and is never rejected as INVALID_PARAMETER; a limit string
that does not parse as an integer fails the request with 400
INVALID_PARAMETER before any scan. -/
theorem computeLimit_spec :
    computeLimit none = some 20 ∧
    (∀ (s : String) (n : Int), pyInt s = some n → computeLimit (some s) = some (min n 100)) ∧
    (∀ s : String, pyInt s = none →
       ∀ (loads : String → Option String) (p : ListParams) (st : Store), p.limit = some s →
       listImages loads p st =
         (.err 400 "Invalid parameter value" "INVALID_PARAMETER", false)) ∧
    (∀ (s : String) (n : Int), pyInt s = some n →
       ∀ (loads : String → Option String) (p : ListParams) (st : Store), p.limit = some s →
       ∀ m : String, (listImages loads p st).1 ≠ .err 400 m "INVALID_PARAMETER") := by
  refine ⟨rfl, ?_, ?_, ?_⟩
  · intro s n h
    simp [computeLimit, h, MAX_PAGE_SIZE]
  · intro s h loads p st hp
    simp [listImages, computeLimit, hp, h]
  · intro s n h loads p st hp m
    have hc : computeLimit p.limit = some (min n 100) := by
      simp [computeLimit, hp, h, MAX_PAGE_SIZE]
    simp only [listImages, hc]
    split
    · simp
    · simp

/-- C5 witness: `limit=250` is accepted and clamped to 100; `limit` absent
defaults to 20. -/
theorem computeLimit_spec_witness :
    computeLimit (some "250") = some 100 ∧ computeLimit none = some 20 := by
  constructor
  · have h := computeLimit_spec.2.1 "250" 250 (by rfl)
    simpa using h
  · exact computeLimit_spec.1

/-! ## C6 — malformed cursor fails before any scan -/

/-- C6: a list request carrying a truthy `last_evaluated_key` that the JSON
decoder rejects fails with the dedicated 400 INVALID_PAGINATION error and the
store is never scanned (the returned flag records whether `table.scan` ran);
the limit parameter is assumed absent-or-parseable, since a bad limit fails
first as INVALID_PARAMETER. -/
theorem listImages_bad_cursor (loads : String → Option String) (p : ListParams)
    (st : Store) (cur : String) (lim : Int)
    (hlim : computeLimit p.limit = some lim)
    (hcur : p.last_evaluated_key = some cur) (hne : cur ≠ "")
    (hparse : loads cur = none) :
    listImages loads p st =
      (.err 400 "Invalid last_evaluated_key format" "INVALID_PAGINATION", false) := by
  simp [listImages, hlim, hcur, truthyS, hne, hparse, bne_iff_ne]

/-- C6 witness: the cursor `not json` does not decode; listing with it yields
INVALID_PAGINATION with no scan. -/
theorem listImages_bad_cursor_witness :
    listImages lekParse ⟨none, none, none, none, none, none, none, some "not json"⟩ demoStore =
      (.err 400 "Invalid last_evaluated_key format" "INVALID_PAGINATION", false) :=
  listImages_bad_cursor lekParse _ demoStore "not json" 20 rfl rfl (by decide) (by rfl)

/-! ## C7 — `s3_key` never leaves the service -/

/-- C7: no item returned by the list operation carries the `s3_key` attribute
(for any store contents, filters and cursor), and no successful non-download
get response body carries it (the source strips `s3_key` from every scanned
item and builds the get metadata dict from a fixed allow-list of fields). -/
theorem no_s3_key_in_responses :
    (∀ (loads : String → Option String) (p : ListParams) (st : Store)
       (d : ListData) (b : Bool),
       listImages loads p st = (.ok d, b) →
       ∀ it ∈ d.images, hasKey it "s3_key" = false) ∧
    (∀ (iid dl u : Option String) (pf : Bool) (st : Store)
       (s : Nat) (body : Item) (m : Option String),
       getImage iid dl u pf st = .ok s body m →
       pyLower (dl.getD "false") ≠ "true" →
       hasKey body "s3_key" = false) := by
  constructor
  · intro loads p st d b h it hit
    rcases hcl : computeLimit p.limit with _ | lim
    · simp [listImages, hcl] at h
    · simp only [listImages, hcl] at h
      split at h
      · simp at h
      · simp only [Prod.mk.injEq, ListResp.ok.injEq] at h
        obtain ⟨hd, _⟩ := h
        rw [← hd] at hit
        simp only [List.mem_map] at hit
        obtain ⟨src, _, hsrc⟩ := hit
        rw [← hsrc]
        exact hasKey_removeKey_self src "s3_key"
  · intro iid dl u pf st s body m h hdl
    rcases hval : validate_image_id iid with ⟨vb, vm⟩
    cases vb
    · simp [getImage, hval] at h
    · rcases htg : tableGet st.table (iid.getD "") with _ | item
      · simp [getImage, hval, htg] at h
      · have hdlf : (pyLower (dl.getD "false") == "true") = false := by
          simp [hdl]
        simp only [getImage, hval, htg, hdlf, Bool.false_eq_true, if_false,
          ApiResp.ok.injEq] at h
        obtain ⟨_, hbody, _⟩ := h
        rw [← hbody]
        split
        · simp [hasKey, getAttr_metaOf_s3key]
        · simp [hasKey, getAttr_append, getAttr_metaOf_s3key, getAttr]

/-- C7 witness: listing the demo store and a metadata get of the demo record
both come back without `s3_key`. -/
theorem no_s3_key_in_responses_witness :
    (∀ it ∈ (⟨[removeKey demoItem "s3_key"], 1, 1, false, none⟩ : ListData).images,
       hasKey it "s3_key" = false) ∧
    hasKey (metaOf demoItem ++
      [("download_url", .vs (presignUrl "images/user123/img1.png")),
       ("url_expires_in", .vn 3600)]) "s3_key" = false :=
  ⟨no_s3_key_in_responses.1 lekParse ⟨none, none, none, none, none, none, none, none⟩
      demoStore ⟨[removeKey demoItem "s3_key"], 1, 1, false, none⟩ true (by rfl),
   no_s3_key_in_responses.2 (some "img1") none none false demoStore 200
      (metaOf demoItem ++
        [("download_url", .vs (presignUrl "images/user123/img1.png")),
         ("url_expires_in", .vn 3600)]) none (by rfl) (by decide)⟩

/-! ## C8 — metadata validation boundaries -/

/-- C8: metadata validation accepts every object sitting exactly on the
boundaries (title 256 chars, description 2048 chars, 20 tags of exactly 50
chars each) and rejects any object with title > 256, description > 2048,
more than 20 tags, or any tag > 50 chars. -/
theorem validate_metadata_boundaries :
    (∀ (m : Metadata) (t d : String) (ts : List String),
       m.title = some t → t.length = 256 →
       m.description = some d → d.length = 2048 →
       m.tags = some ts → ts.length = 20 → (∀ x ∈ ts, x.length = 50) →
       (validate_metadata m).1 = true) ∧
    (∀ m : Metadata,
       ((∃ t, m.title = some t ∧ 256 < t.length) ∨
        (∃ d, m.description = some d ∧ 2048 < d.length) ∨
        (∃ ts, m.tags = some ts ∧ 20 < ts.length) ∨
        (∃ ts x, m.tags = some ts ∧ x ∈ ts ∧ 50 < x.length)) →
       (validate_metadata m).1 = false) := by
  constructor
  · intro m t d ts ht hlt hd hld hts hlts htag
    obtain ⟨mt, mdd, mts, ml⟩ := m
    simp only at ht hd hts
    subst ht hd hts
    have hany : ts.any (fun x => decide (x.length > 50)) = false := by
      rw [List.any_eq_false]
      intro x hx
      simp [htag x hx]
    simp [validate_metadata, mdTruthy, hlt, hld, hlts, hany]
  · intro m hbad
    obtain ⟨mt, mdd, mts, ml⟩ := m
    rcases hbad with ⟨t, ht, hlt⟩ | ⟨d, hd, hld⟩ | ⟨ts, hts, hlts⟩ | ⟨ts, x, hts, hx, hlx⟩
    · simp only at ht
      subst ht
      simp [validate_metadata, mdTruthy, hlt]
    · simp only at hd
      subst hd
      rcases mt with _ | t'
      · simp [validate_metadata, mdTruthy, hld]
      · by_cases h256 : 256 < t'.length
        · simp [validate_metadata, mdTruthy, h256]
        · simp [validate_metadata, mdTruthy, h256, hld]
    · simp only at hts
      subst hts
      rcases mt with _ | t'
      · rcases mdd with _ | d'
        · simp [validate_metadata, mdTruthy, hlts]
        · by_cases hd2 : 2048 < d'.length
          · simp [validate_metadata, mdTruthy, hd2]
          · simp [validate_metadata, mdTruthy, hd2, hlts]
      · by_cases h256 : 256 < t'.length
        · simp [validate_metadata, mdTruthy, h256]
        · rcases mdd with _ | d'
          · simp [validate_metadata, mdTruthy, h256, hlts]
          · by_cases hd2 : 2048 < d'.length
            · simp [validate_metadata, mdTruthy, h256, hd2]
            · simp [validate_metadata, mdTruthy, h256, hd2, hlts]
    · simp only at hts
      subst hts
      have hany : ts.any (fun x => decide (x.length > 50)) = true := by
        rw [List.any_eq_true]
        exact ⟨x, hx, by simp [hlx]⟩
      rcases mt with _ | t'
      · rcases mdd with _ | d'
        · by_cases h20 : 20 < ts.length
          · simp [validate_metadata, mdTruthy, h20]
          · simp [validate_metadata, mdTruthy, h20, hany]
        · by_cases hd2 : 2048 < d'.length
          · simp [validate_metadata, mdTruthy, hd2]
          · by_cases h20 : 20 < ts.length
            · simp [validate_metadata, mdTruthy, hd2, h20]
            · simp [validate_metadata, mdTruthy, hd2, h20, hany]
      · by_cases h256 : 256 < t'.length
        · simp [validate_metadata, mdTruthy, h256]
        · rcases mdd with _ | d'
          · by_cases h20 : 20 < ts.length
            · simp [validate_metadata, mdTruthy, h256, h20]
            · simp [validate_metadata, mdTruthy, h256, h20, hany]
          · by_cases hd2 : 2048 < d'.length
            · simp [validate_metadata, mdTruthy, h256, hd2]
            · by_cases h20 : 20 < ts.length
              · simp [validate_metadata, mdTruthy, h256, hd2, h20]
              · simp [validate_metadata, mdTruthy, h256, hd2, h20, hany]

set_option maxRecDepth 40000 in
/-- C8 witness: an exactly-at-boundary object is accepted; a title of 257
characters is rejected. -/
theorem validate_metadata_boundaries_witness :
    (validate_metadata
      ⟨some (String.mk (List.replicate 256 'a')),
       some (String.mk (List.replicate 2048 'b')),
       some (List.replicate 20 (String.mk (List.replicate 50 'c'))), none⟩).1 = true ∧
    (validate_metadata
      ⟨some (String.mk (List.replicate 257 'a')), none, none, none⟩).1 = false := by
  constructor
  · refine validate_metadata_boundaries.1 _ _ _ _ rfl rfl rfl rfl rfl rfl ?_
    intro x hx
    rw [List.eq_of_mem_replicate hx]
    rfl
  · refine validate_metadata_boundaries.2 _ (Or.inl ⟨_, rfl, ?_⟩)
    decide

/-! ## Store round-trip lemmas -/

theorem tableGet_tablePut_self (tbl : List Item) (it : Item) (id : String)
    (h : idOf it = some id) : tableGet (tablePut tbl it) id = some it := by
  simp [tablePut, h, tableGet, List.find?_cons]

theorem blobGet_blobPut_self (bl : List (String × List Nat)) (k : String) (v : List Nat) :
    blobGet (blobPut bl k v) k = some v := by
  simp [blobGet, blobPut, List.find?_cons]

theorem tablePut_head (tbl : List Item) (it : Item) :
    (tablePut tbl it).head? = some it := by
  rcases h : idOf it with _ | id <;> simp [tablePut, h]

/-! ## Upload item lemmas -/

theorem getAttr_optEntry_self (k : String) (o : Option String) :
    getAttr (optEntry k o) k = optAttr o := by
  cases o with
  | none => rfl
  | some v => by_cases hv : v = "" <;> simp [optEntry, optAttr, hv, getAttr]

theorem getAttr_optEntry_ne (k k' : String) (o : Option String) (h : k ≠ k') :
    getAttr (optEntry k o) k' = none := by
  cases o with
  | none => rfl
  | some v => by_cases hv : v = "" <;> simp [optEntry, hv, getAttr, h]

theorem getAttr_optTagsEntry_self (o : Option (List String)) :
    getAttr (optTagsEntry o) "tags" = optTagsAttr o := by
  cases o with
  | none => rfl
  | some l => by_cases hl : l = [] <;> simp [optTagsEntry, optTagsAttr, hl, getAttr]

theorem getAttr_optTagsEntry_ne (k' : String) (o : Option (List String)) (h : k' ≠ "tags") :
    getAttr (optTagsEntry o) k' = none := by
  cases o with
  | none => rfl
  | some l => by_cases hl : l = [] <;> simp [optTagsEntry, hl, getAttr, Ne.symm h]

theorem uploadItem_idOf (genId uid key fn ct : String) (fs : Nat) (now : String)
    (md : Metadata) :
    idOf (uploadItem genId uid key fn ct fs now md) = some genId := by
  simp [idOf, uploadItem, getAttr]

theorem uploadItem_getAttr_s3key (genId uid key fn ct : String) (fs : Nat) (now : String)
    (md : Metadata) :
    getAttr (uploadItem genId uid key fn ct fs now md) "s3_key" = some (.vs key) := by
  simp [uploadItem, getAttr]

theorem uploadItem_getAttr_title (genId uid key fn ct : String) (fs : Nat) (now : String)
    (md : Metadata) :
    getAttr (uploadItem genId uid key fn ct fs now md) "title" = optAttr md.title := by
  simp [uploadItem, getAttr, getAttr_append, getAttr_optEntry_self,
    getAttr_optEntry_ne "description" "title" _ (by decide),
    getAttr_optTagsEntry_ne "title" _ (by decide),
    getAttr_optEntry_ne "location" "title" _ (by decide)]
  rcases h : optAttr md.title with _ | v <;> simp [h]

theorem uploadItem_getAttr_description (genId uid key fn ct : String) (fs : Nat)
    (now : String) (md : Metadata) :
    getAttr (uploadItem genId uid key fn ct fs now md) "description" =
      optAttr md.description := by
  simp [uploadItem, getAttr, getAttr_append, getAttr_optEntry_self,
    getAttr_optEntry_ne "title" "description" _ (by decide),
    getAttr_optTagsEntry_ne "description" _ (by decide),
    getAttr_optEntry_ne "location" "description" _ (by decide)]
  rcases h : optAttr md.description with _ | v <;> simp [h]

theorem uploadItem_getAttr_tags (genId uid key fn ct : String) (fs : Nat) (now : String)
    (md : Metadata) :
    getAttr (uploadItem genId uid key fn ct fs now md) "tags" = optTagsAttr md.tags := by
  simp [uploadItem, getAttr, getAttr_append, getAttr_optTagsEntry_self,
    getAttr_optEntry_ne "title" "tags" _ (by decide),
    getAttr_optEntry_ne "description" "tags" _ (by decide),
    getAttr_optEntry_ne "location" "tags" _ (by decide)]
  rcases h : optTagsAttr md.tags with _ | v <;> simp [h]

theorem uploadItem_getAttr_location (genId uid key fn ct : String) (fs : Nat)
    (now : String) (md : Metadata) :
    getAttr (uploadItem genId uid key fn ct fs now md) "location" =
      optAttr md.location := by
  simp [uploadItem, getAttr, getAttr_append, getAttr_optEntry_self,
    getAttr_optEntry_ne "title" "location" _ (by decide),
    getAttr_optEntry_ne "description" "location" _ (by decide),
    getAttr_optTagsEntry_ne "location" _ (by decide)]

/-! ## C9 — upload / download round trip -/

/-- C9: after a successful upload (which stores the bytes decoded from the
request's base64 `image_data`), a get of the same id with `download=true`
returns a body whose `image_data` is the base64 encoding of exactly those
stored bytes, and decoding it yields the stored bytes again — the blob round
trips unchanged through the decode/encode pair. -/
theorem upload_get_roundtrip (body : UploadBody) (genId now : String) (st : Store)
    (bytes : List Nat) (respD : Item) (msg : Option String) (st2 : Store)
    (hgen : validate_image_id (some genId) = (true, none))
    (hdec : b64DecodeBytes (body.image_data.getD []) = some bytes)
    (hup : uploadImage body genId now st = ⟨.ok 201 respD msg, st2⟩) :
    statusOf (getImage (some genId) (some "true") none false st2) = 200 ∧
    ((getBody (getImage (some genId) (some "true") none false st2)).bind
        (fun b => getAttr b "image_data")) =
      some (.vbytes (b64EncodeBytes bytes)) ∧
    b64DecodeBytes (b64EncodeBytes bytes) = some bytes := by
  rcases h1 : validate_user_id body.user_id with ⟨b1, m1⟩
  cases b1
  · simp [uploadImage, h1] at hup
  rcases h2 : validate_image_file body.image_data body.filename with ⟨b2, m2⟩
  cases b2
  · simp [uploadImage, h1, h2] at hup
  rcases h3 : validate_metadata body.metadata with ⟨b3, m3⟩
  cases b3
  · simp [uploadImage, h1, h2, h3] at hup
  have hst2 : (uploadImage body genId now st).store = st2 := by rw [hup]
  simp only [uploadImage, h1, h2, h3, hdec] at hst2
  subst hst2
  have hdl : (pyLower "true" == "true") = true := by decide
  refine ⟨?_, ?_, b64_roundtrip bytes (b64DecodeBytes_bytes_lt _ _ hdec)⟩
  · simp [getImage, hgen, hdl, statusOf,
      tableGet_tablePut_self _ _ _ (uploadItem_idOf _ _ _ _ _ _ _ _),
      uploadItem_getAttr_s3key, blobGet_blobPut_self]
  · simp [getImage, hgen, hdl, getBody, getAttr,
      tableGet_tablePut_self _ _ _ (uploadItem_idOf _ _ _ _ _ _ _ _),
      uploadItem_getAttr_s3key, blobGet_blobPut_self]

/-- C9 witness: uploading the PNG magic bytes then downloading them returns
base64 that decodes to the same four bytes. -/
theorem upload_get_roundtrip_witness :
    statusOf (getImage (some "uuid-1") (some "true") none false
      (uploadImage demoUpload "uuid-1" "2024-02-02T00:00:00" demoStore).store) = 200 ∧
    ((getBody (getImage (some "uuid-1") (some "true") none false
        (uploadImage demoUpload "uuid-1" "2024-02-02T00:00:00" demoStore).store)).bind
      (fun b => getAttr b "image_data")) =
      some (.vbytes (b64EncodeBytes [137, 80, 78, 71])) ∧
    b64DecodeBytes (b64EncodeBytes [137, 80, 78, 71]) = some [137, 80, 78, 71] :=
  upload_get_roundtrip demoUpload "uuid-1" "2024-02-02T00:00:00" demoStore
    [137, 80, 78, 71]
    [("image_id", .vs "uuid-1"), ("filename", .vs "t.png"),
     ("s3_key", .vs "images/user123/uuid-1.png"), ("created_at", .vs "2024-02-02T00:00:00")]
    (some "Image uploaded successfully")
    (uploadImage demoUpload "uuid-1" "2024-02-02T00:00:00" demoStore).store
    (by rfl) (by rfl) (by rfl)

/-! ## C10 — falsy metadata fields are omitted from the stored record -/

/-- C10: the record stored by a successful upload carries each optional
metadata field exactly when its supplied value is truthy: an absent field, an
empty-string `title`/`description`/`location`, or an empty `tags` list all
leave the attribute out of the stored record, so no stored record ever holds
an empty-string optional field or an empty tags list. -/
theorem upload_falsy_metadata_omitted (body : UploadBody) (genId now : String)
    (st : Store) (respD : Item) (msg : Option String) (st2 : Store)
    (hup : uploadImage body genId now st = ⟨.ok 201 respD msg, st2⟩) :
    ∃ item : Item, st2.table.head? = some item ∧
      getAttr item "title" = optAttr body.metadata.title ∧
      getAttr item "description" = optAttr body.metadata.description ∧
      getAttr item "tags" = optTagsAttr body.metadata.tags ∧
      getAttr item "location" = optAttr body.metadata.location := by
  rcases h1 : validate_user_id body.user_id with ⟨b1, m1⟩
  cases b1
  · simp [uploadImage, h1] at hup
  rcases h2 : validate_image_file body.image_data body.filename with ⟨b2, m2⟩
  cases b2
  · simp [uploadImage, h1, h2] at hup
  rcases h3 : validate_metadata body.metadata with ⟨b3, m3⟩
  cases b3
  · simp [uploadImage, h1, h2, h3] at hup
  rcases h4 : b64DecodeBytes (body.image_data.getD []) with _ | bytes
  · simp [uploadImage, h1, h2, h3, h4] at hup
  have hst2 : (uploadImage body genId now st).store = st2 := by rw [hup]
  simp only [uploadImage, h1, h2, h3, h4] at hst2
  subst hst2
  refine ⟨uploadItem genId (body.user_id.getD "")
      ("images/" ++ body.user_id.getD "" ++ "/" ++ genId ++ "." ++
        pyLower (lastDotPart (body.filename.getD "")))
      (body.filename.getD "") (contentTypeOf (pyLower (lastDotPart (body.filename.getD ""))))
      bytes.length now body.metadata, ?_, ?_, ?_, ?_, ?_⟩
  · simp [tablePut_head]
  · exact uploadItem_getAttr_title _ _ _ _ _ _ _ _
  · exact uploadItem_getAttr_description _ _ _ _ _ _ _ _
  · exact uploadItem_getAttr_tags _ _ _ _ _ _ _ _
  · exact uploadItem_getAttr_location _ _ _ _ _ _ _ _

/-- C10 witness: an upload whose metadata has `title=\"\"` and `tags=[]`
stores a record with no `title`, `description`, `tags` or `location`
attribute at all. -/
theorem upload_falsy_metadata_omitted_witness :
    ∃ item : Item,
      ((uploadImage demoUpload "uuid-1" "2024-02-02T00:00:00" demoStore).store).table.head? =
        some item ∧
      getAttr item "title" = optAttr demoUpload.metadata.title ∧
      getAttr item "description" = optAttr demoUpload.metadata.description ∧
      getAttr item "tags" = optTagsAttr demoUpload.metadata.tags ∧
      getAttr item "location" = optAttr demoUpload.metadata.location :=
  upload_falsy_metadata_omitted demoUpload "uuid-1" "2024-02-02T00:00:00" demoStore
    [("image_id", .vs "uuid-1"), ("filename", .vs "t.png"),
     ("s3_key", .vs "images/user123/uuid-1.png"), ("created_at", .vs "2024-02-02T00:00:00")]
    (some "Image uploaded successfully")
    (uploadImage demoUpload "uuid-1" "2024-02-02T00:00:00" demoStore).store
    (by rfl)

end ImageApi
